import Mathlib

/-!
Verification of the livekit-voice-agent control plane.

Shallow embedding of the session/process lifecycle and event-relay logic of
`src/flask_server.py` and `src/room_manager.py`.  External effects (subprocess
spawning, process liveness polls, remote room-service calls, JWT signing) are
passed in as explicit oracle arguments of `Except`/`Bool` type; the embedded
functions compute exactly what the Python handlers do with those outcomes.
-/

namespace LivekitVoiceAgent

/-! ### Agent process supervisor (`src/flask_server.py`, lines 18-87)

The Python module keeps two globals: `agent_process` (a `Popen` handle or
`None`) and `agent_status` (a string).  We model the handle by the pid it
carries, and each `poll()` outcome by a `Bool` oracle (`true` = `poll()`
returned `None`, i.e. the process is alive). -/

structure SupState where
  agent_process : Option Nat
  agent_status : String
  deriving DecidableEq, Repr

/-- Initial module state: `agent_process = None`, `agent_status = "stopped"`. -/
def SupState.init : SupState := { agent_process := none, agent_status := "stopped" }

inductive StartResult
  | already_running
  | started
  | failed_to_start
  | spawn_error (msg : String)
  deriving DecidableEq, Repr

/-- `start_agent` (flask_server.py lines 28-56).  `aliveNow` is the result of
the initial `agent_process.poll() is None` check; `spawn` is the outcome of
`subprocess.Popen` (`.error` models the `except Exception` branch, in which the
assignment to `agent_process` never happened); `aliveAfter` is the re-poll
after the 2-second settle delay. -/
def start_agent (s : SupState) (aliveNow : Bool) (spawn : Except String Nat)
    (aliveAfter : Bool) : SupState × StartResult :=
  if s.agent_process.isSome && aliveNow then
    (s, .already_running)
  else
    match spawn with
    | .error e => ({ s with agent_status := "error" }, .spawn_error e)
    | .ok pid =>
      if aliveAfter then
        ({ agent_process := some pid, agent_status := "running" }, .started)
      else
        ({ agent_process := some pid, agent_status := "failed" }, .failed_to_start)

inductive StopResult
  | stopped
  | not_running
  deriving DecidableEq, Repr

/-- `stop_agent` (flask_server.py lines 58-70).  Terminating the process does
not clear the `agent_process` handle; only `agent_status` is normalized. -/
def stop_agent (s : SupState) (aliveNow : Bool) : SupState × StopResult :=
  if s.agent_process.isSome && aliveNow then
    ({ s with agent_status := "stopped" }, .stopped)
  else
    ({ s with agent_status := "stopped" }, .not_running)

/-- `get_agent_status` (flask_server.py lines 72-87).  Recomputes
`agent_status` from process liveness when a handle exists, and reports the pid
only while the process is alive. -/
def get_agent_status (s : SupState) (aliveNow : Bool) :
    SupState × (String × Option Nat) :=
  match s.agent_process with
  | some pid =>
    if aliveNow then
      ({ s with agent_status := "running" }, ("running", some pid))
    else
      ({ s with agent_status := "stopped" }, ("stopped", none))
  | none => (s, (s.agent_status, none))

/-- One supervisor HTTP operation together with its external oracle outcomes. -/
inductive SupOp
  | start (aliveNow : Bool) (spawn : Except String Nat) (aliveAfter : Bool)
  | stop (aliveNow : Bool)
  | status (aliveNow : Bool)
  deriving Repr

def applyOp (s : SupState) : SupOp → SupState
  | .start aliveNow spawn aliveAfter => (start_agent s aliveNow spawn aliveAfter).1
  | .stop aliveNow => (stop_agent s aliveNow).1
  | .status aliveNow => (get_agent_status s aliveNow).1

/-- State reached after a sequence of supervisor operations from module load. -/
def runOps (ops : List SupOp) : SupState := ops.foldl applyOp SupState.init

/-! ### Event relay (`src/flask_server.py`, lines 100-151)

`event_queues` is a Python list of `queue.Queue` objects.  A `queue.Queue`
with `maxsize = 0` (the default) is unbounded; `put_nowait` raises
`queue.Full` exactly when `0 < maxsize` and the queue already holds `maxsize`
items.  Queue contents are kept FIFO as a list (head = oldest element). -/

abbrev Event := String

structure ClientQueue where
  qid : Nat
  maxsize : Nat
  items : List Event
  deriving DecidableEq, Repr

/-- `queue.Full` condition for `put_nowait`: never full when `maxsize = 0`. -/
def ClientQueue.isFull (q : ClientQueue) : Bool :=
  decide (0 < q.maxsize ∧ q.maxsize ≤ q.items.length)

/-- `put_nowait`: `none` models the `queue.Full` exception. -/
def ClientQueue.put_nowait (q : ClientQueue) (e : Event) : Option ClientQueue :=
  if q.isFull then none
  else some { q with items := q.items ++ [e] }

/-- `event_stream` registration (flask_server.py lines 103-105): a fresh
`queue.Queue()` — default `maxsize = 0` — is appended to `event_queues`.
Returns the new registry and the queue that was registered. -/
def subscribe (qs : List ClientQueue) (fresh : Nat) :
    List ClientQueue × ClientQueue :=
  let q : ClientQueue := { qid := fresh, maxsize := 0, items := [] }
  (qs ++ [q], q)

/-- `receive_agent_data` broadcast loop (flask_server.py lines 141-147):
iterate over a snapshot of `event_queues`, `put_nowait` the event on each
queue, and remove from the registry any queue whose put raised `queue.Full`. -/
def publish (qs : List ClientQueue) (e : Event) : List ClientQueue :=
  qs.filterMap (fun q => q.put_nowait e)

/-- Publishing a sequence of events, in submission order. -/
def publishAll (qs : List ClientQueue) (es : List Event) : List ClientQueue :=
  es.foldl publish qs

/-- One element yielded on the SSE stream: a content event or a heartbeat. -/
inductive SSEItem
  | content (data : Event)
  | heartbeat (timestamp : Nat)
  deriving DecidableEq, Repr

/-- The idle timeout passed to `client_queue.get(timeout=30)`. -/
def STREAM_TIMEOUT : Nat := 30

/-- One iteration of the `event_stream` generator loop (flask_server.py lines
108-115) for the subscriber whose queue has id `i`, at the moment its
`get(timeout=STREAM_TIMEOUT)` returns: if the queue has an item the oldest is
dequeued and yielded as a content event; if the queue stayed empty for the
whole timeout, `queue.Empty` is raised and a heartbeat is yielded instead.
The loop never removes the queue from `event_queues`; deregistration happens
only in the `finally` block on client disconnect. -/
def relay_stream_tick (qs : List ClientQueue) (i : Nat) (now : Nat) :
    SSEItem × List ClientQueue :=
  match qs.find? (fun q => q.qid == i) with
  | none => (.heartbeat now, qs)
  | some q =>
    match q.items with
    | [] => (.heartbeat now, qs)
    | e :: _ =>
      (.content e,
       qs.map (fun q' => if q'.qid == i then { q' with items := q'.items.tail } else q'))

/-! ### Room lifecycle manager (`src/room_manager.py`)

`active_rooms` is a dict keyed by room name; we model it as an association
list with unique keys.  Remote calls (room creation, JWT signing, worker
startup, shutdown, room deletion) are oracle arguments. -/

structure RoomObj where
  name : String
  deriving DecidableEq, Repr

structure SessionEntry where
  room : RoomObj
  agent_worker : Nat
  created_at : Nat
  deriving DecidableEq, Repr

abbrev Registry := List (String × SessionEntry)

structure SessionDetails where
  room_name : String
  server_url : String
  participant_token : String
  participant_name : String
  participant_identity : String
  deriving DecidableEq, Repr

structure VideoGrant where
  room_join : Bool
  room : String
  can_publish : Bool
  can_subscribe : Bool
  can_publish_data : Bool
  deriving DecidableEq, Repr

structure AccessToken where
  identity : String
  name : String
  ttl : Nat
  grants : List VideoGrant
  deriving DecidableEq, Repr

/-- `RoomManager.create_participant_token` (room_manager.py lines 74-90):
sets identity, display name, `ttl = 3600`, and adds the single `VideoGrant`
with `room_join`, `can_publish`, `can_subscribe`, `can_publish_data` for the
target room.  (`to_jwt` signs this object; the encoded content is the object
itself.) -/
def create_participant_token (identity name room_name : String) : AccessToken :=
  { identity := identity
    name := name
    ttl := 3600
    grants := [{ room_join := true, room := room_name, can_publish := true,
                 can_subscribe := true, can_publish_data := true }] }

/-- `RoomManager.create_room_with_agent` (room_manager.py lines 37-72).
The three fallible steps — remote room creation, token issuance (`to_jwt` can
fail on missing credentials), and agent launch — are oracle arguments; the
registry entry is written only after all three succeed, and in the `except`
branch only the wrapped error is returned, the registry untouched. -/
def create_room_with_agent (reg : Registry)
    (room_name participant_identity : String)
    (createRoomResult : Except String RoomObj)
    (tokenResult : Except String String)
    (startAgentResult : Except String Nat)
    (now : Nat) (user_name server_url : String) :
    Registry × Except String SessionDetails :=
  match createRoomResult with
  | .error e => (reg, .error ("Failed to create room with agent: " ++ e))
  | .ok room =>
    match tokenResult with
    | .error e => (reg, .error ("Failed to create room with agent: " ++ e))
    | .ok user_token =>
      match startAgentResult with
      | .error e => (reg, .error ("Failed to create room with agent: " ++ e))
      | .ok agent_worker =>
        ((room_name,
          { room := room, agent_worker := agent_worker, created_at := now }) :: reg,
         .ok { room_name := room_name
               server_url := server_url
               participant_token := user_token
               participant_name := user_name
               participant_identity := participant_identity })

/-- `RoomManager.cleanup_room` (room_manager.py lines 124-145): no-op when the
room is not tracked; otherwise best-effort worker shutdown and remote room
deletion — both outcomes swallowed — followed by unconditional removal of the
entry. -/
def cleanup_room (reg : Registry) (room_name : String)
    (_shutdownResult _deleteResult : Except String Unit) : Registry :=
  match reg.lookup room_name with
  | none => reg
  | some _ => reg.filter (fun p => p.1 != room_name)

structure EndSessionResponse where
  http_status : Nat
  success : Bool
  deriving DecidableEq, Repr

/-- Python falsiness of `data.get('room_name')`: missing field (`None`) or
empty string. -/
def pyFalsyStr : Option String → Bool
  | none => true
  | some s => s == ""

/-- `end_voice_session` endpoint (room_manager.py lines 185-210): a falsy
`room_name` yields a 400 error before any cleanup; otherwise `cleanup_room`
runs and the endpoint reports success. -/
def end_voice_session (reg : Registry) (room_name_field : Option String)
    (shutdownResult deleteResult : Except String Unit) :
    Registry × EndSessionResponse :=
  if pyFalsyStr room_name_field then
    (reg, { http_status := 400, success := false })
  else
    (cleanup_room reg (room_name_field.getD "") shutdownResult deleteResult,
     { http_status := 200, success := true })

/-! ### Helper lemmas -/

/-- A queue with `maxsize = 0` (the `queue.Queue()` default) is never full,
so `put_nowait` always succeeds by appending. -/
theorem put_nowait_unbounded (q : ClientQueue) (e : Event) (h : q.maxsize = 0) :
    q.put_nowait e = some { q with items := q.items ++ [e] } := by
  simp [ClientQueue.put_nowait, ClientQueue.isFull, h]

/-- Broadcasting one event over a registry of unbounded queues appends it to
every queue and removes none. -/
theorem publish_unbounded (qs : List ClientQueue) (e : Event)
    (h : ∀ q ∈ qs, q.maxsize = 0) :
    publish qs e = qs.map (fun q => { q with items := q.items ++ [e] }) := by
  induction qs with
  | nil => rfl
  | cons q rest ih =>
    have hput := put_nowait_unbounded q e (h q (List.mem_cons_self q rest))
    have hrest := ih (fun q' hq' => h q' (List.mem_cons_of_mem q hq'))
    simp only [publish] at hrest ⊢
    simp [List.filterMap_cons, hput, hrest]

/-! ### Claim theorems -/

/-- Claim C1 counterexample: the queue registered by the event-stream
subscribe operation is a default `queue.Queue()` with `maxsize = 0`, which is
unbounded — the claim that every registered subscriber queue is bounded fails
already for the first subscriber of an empty registry. -/
theorem subscribe_queue_not_bounded :
    ¬ 0 < (subscribe [] 0).2.maxsize := by decide

/-- Claim C1 (amended): every subscriber queue registered by subscribe is
unbounded (`maxsize = 0`), and for every publish of an event the broadcast
deregisters exactly the queues that are full — never blocking the publisher —
while every queue that is not full stays registered and receives the event. -/
theorem subscribe_unbounded_publish_drops_full (qs : List ClientQueue)
    (e : Event) (n : Nat) :
    (subscribe qs n).2.maxsize = 0 ∧
    publish qs e =
      (qs.filter (fun q => !q.isFull)).map
        (fun q => { q with items := q.items ++ [e] }) := by
  refine ⟨rfl, ?_⟩
  induction qs with
  | nil => rfl
  | cons q rest ih =>
    by_cases h : q.isFull
    · simp only [publish, List.filterMap_cons, List.filter_cons,
        ClientQueue.put_nowait, h, if_true] at ih ⊢
      simpa using ih
    · simp only [publish, List.filterMap_cons, List.filter_cons,
        ClientQueue.put_nowait] at ih ⊢
      simp [h, ih]

/-- Claim C3: publishing the events `es` in order to a registry of subscriber
queues none of which is ever full (all are unbounded, as produced by
subscribe) keeps every subscriber registered and appends all events to every
queue in submission order — per-subscriber FIFO delivery of all `N` events to
each of the `K` subscribers. -/
theorem broadcast_all_events_fifo (qs : List ClientQueue) (es : List Event)
    (h : ∀ q ∈ qs, q.maxsize = 0) :
    publishAll qs es = qs.map (fun q => { q with items := q.items ++ es }) ∧
    (publishAll qs es).length = qs.length := by
  have main : ∀ (es : List Event) (qs : List ClientQueue),
      (∀ q ∈ qs, q.maxsize = 0) →
      publishAll qs es = qs.map (fun q => { q with items := q.items ++ es }) := by
    intro es
    induction es with
    | nil =>
      intro qs _
      show qs = qs.map fun q => { q with items := q.items ++ [] }
      simp
    | cons e es ih =>
      intro qs hqs
      show publishAll (publish qs e) es = _
      rw [publish_unbounded qs e hqs,
          ih _ (by intro q' hq'; rcases List.mem_map.mp hq' with ⟨q, hq, rfl⟩;
                   exact hqs q hq),
          List.map_map]
      simp [Function.comp]
  refine ⟨main es qs h, ?_⟩
  rw [main es qs h, List.length_map]

/-- Witness for C3: two fresh subscribers receive three published events in
submission order. -/
theorem broadcast_all_events_fifo_witness :
    (∀ q ∈ ([{ qid := 0, maxsize := 0, items := [] },
             { qid := 1, maxsize := 0, items := [] }] : List ClientQueue),
        q.maxsize = 0) ∧
    publishAll
        [{ qid := 0, maxsize := 0, items := [] },
         { qid := 1, maxsize := 0, items := [] }] ["t1", "t2", "t3"] =
      [{ qid := 0, maxsize := 0, items := ["t1", "t2", "t3"] },
       { qid := 1, maxsize := 0, items := ["t1", "t2", "t3"] }] ∧
    (publishAll
        [{ qid := 0, maxsize := 0, items := [] },
         { qid := 1, maxsize := 0, items := [] }] ["t1", "t2", "t3"]).length = 2 :=
  have h := broadcast_all_events_fifo
    [{ qid := 0, maxsize := 0, items := [] },
     { qid := 1, maxsize := 0, items := [] }] ["t1", "t2", "t3"]
    (by decide)
  ⟨by decide, h.1.trans (by decide), h.2⟩

/-- Claim C9: when a registered subscriber queue stays empty for the whole
idle timeout (30 units, the value passed to `get`), the stream loop yields a
synthesized heartbeat — not a content event — and the subscriber's queue
remains in the registry. -/
theorem idle_subscriber_gets_heartbeat (qs : List ClientQueue) (i now : Nat)
    (q : ClientQueue) (hfind : qs.find? (fun q' => q'.qid == i) = some q)
    (hempty : q.items = []) :
    STREAM_TIMEOUT = 30 ∧
    relay_stream_tick qs i now = (.heartbeat now, qs) ∧
    q ∈ qs := by
  refine ⟨rfl, ?_, List.mem_of_find?_eq_some hfind⟩
  simp [relay_stream_tick, hfind, hempty]

/-- Witness for C9: a registry holding one empty queue with id 5. -/
theorem idle_subscriber_gets_heartbeat_witness :
    (([{ qid := 5, maxsize := 0, items := [] }] : List ClientQueue).find?
        (fun q' => q'.qid == 5) = some { qid := 5, maxsize := 0, items := [] } ∧
      ({ qid := 5, maxsize := 0, items := [] } : ClientQueue).items = []) ∧
    STREAM_TIMEOUT = 30 ∧
    relay_stream_tick [{ qid := 5, maxsize := 0, items := [] }] 5 777 =
      (.heartbeat 777, [{ qid := 5, maxsize := 0, items := [] }]) ∧
    ({ qid := 5, maxsize := 0, items := [] } : ClientQueue) ∈
      ([{ qid := 5, maxsize := 0, items := [] }] : List ClientQueue) :=
  ⟨⟨by decide, rfl⟩,
   idle_subscriber_gets_heartbeat _ 5 777 _ (by decide) rfl⟩

/-- Claim C4: whenever any step of `create_room_with_agent` (remote room
creation, token issuance, or agent launch) raises, the in-memory session
registry is returned unchanged, and in particular the generated room name —
fresh, hence absent beforehand — is not registered. -/
theorem create_session_registry_atomic_on_error (reg : Registry)
    (room_name pident : String) (cr : Except String RoomObj)
    (tk : Except String String) (ag : Except String Nat)
    (now : Nat) (user server e : String)
    (h : (create_room_with_agent reg room_name pident cr tk ag now user server).2
          = .error e) :
    (create_room_with_agent reg room_name pident cr tk ag now user server).1 = reg ∧
    (reg.lookup room_name = none →
      (create_room_with_agent reg room_name pident cr tk ag now user server).1.lookup
        room_name = none) := by
  rcases cr with e₁ | room
  · exact ⟨rfl, fun habs => habs⟩
  · rcases tk with e₂ | tok
    · exact ⟨rfl, fun habs => habs⟩
    · rcases ag with e₃ | w
      · exact ⟨rfl, fun habs => habs⟩
      · simp [create_room_with_agent] at h

/-- Witness for C4: with room creation failing on an empty registry, the
registry stays empty and the room name is unregistered. -/
theorem create_session_registry_atomic_on_error_witness :
    (create_room_with_agent [] "voice_room_ab12cd34" "user_ef56ab78"
        (.error "boom") (.ok "jwt") (.ok 7) 100 "Alice" "wss://lk").1 = [] ∧
    (([] : Registry).lookup "voice_room_ab12cd34" = none →
      (create_room_with_agent [] "voice_room_ab12cd34" "user_ef56ab78"
          (.error "boom") (.ok "jwt") (.ok 7) 100 "Alice" "wss://lk").1.lookup
        "voice_room_ab12cd34" = none) :=
  create_session_registry_atomic_on_error [] "voice_room_ab12cd34" "user_ef56ab78"
    (.error "boom") (.ok "jwt") (.ok 7) 100 "Alice" "wss://lk"
    "Failed to create room with agent: boom" (by rfl)

/-- Claim C5: for a (nonempty) room name absent from the registry,
`end_voice_session` returns HTTP 200 with `success = true` and leaves the
registry unchanged — an idempotent no-op, with no exception path taken. -/
theorem end_session_unknown_room_idempotent (reg : Registry) (rn : String)
    (sd dl : Except String Unit) (hne : rn ≠ "")
    (habs : reg.lookup rn = none) :
    end_voice_session reg (some rn) sd dl =
      (reg, { http_status := 200, success := true }) := by
  have hfalsy : pyFalsyStr (some rn) = false := by
    simp [pyFalsyStr, hne]
  simp [end_voice_session, hfalsy, cleanup_room, habs]

/-- Witness for C5 at a concrete unknown room name over a one-entry registry. -/
theorem end_session_unknown_room_idempotent_witness :
    ("ghost_room" ≠ "" ∧
      ([("voice_room_ab12cd34",
          ({ room := { name := "voice_room_ab12cd34" }, agent_worker := 7,
             created_at := 100 } : SessionEntry))] : Registry).lookup
        "ghost_room" = none) ∧
    end_voice_session
        [("voice_room_ab12cd34",
          { room := { name := "voice_room_ab12cd34" }, agent_worker := 7,
            created_at := 100 })]
        (some "ghost_room") (.ok ()) (.ok ()) =
      ([("voice_room_ab12cd34",
          { room := { name := "voice_room_ab12cd34" }, agent_worker := 7,
            created_at := 100 })],
       { http_status := 200, success := true }) :=
  ⟨⟨by decide, by rfl⟩,
   end_session_unknown_room_idempotent _ _ _ _ (by decide) (by rfl)⟩

/-- Claim C6: when a tracked process exists and the liveness poll says it is
still running, `start_agent` answers `already_running`, leaves the state (the
process handle and the status) unchanged, and spawns nothing. -/
theorem start_agent_already_running (s : SupState) (pid : Nat)
    (spawn : Except String Nat) (aliveAfter : Bool)
    (h : s.agent_process = some pid) :
    start_agent s true spawn aliveAfter = (s, .already_running) := by
  simp [start_agent, h]

/-- Witness for C6: a state tracking pid 42 with a live poll. -/
theorem start_agent_already_running_witness :
    ({ agent_process := some 42, agent_status := "running" } : SupState).agent_process
        = some 42 ∧
    start_agent { agent_process := some 42, agent_status := "running" } true
        (.ok 99) true =
      ({ agent_process := some 42, agent_status := "running" }, .already_running) :=
  ⟨rfl, start_agent_already_running _ 42 (.ok 99) true rfl⟩

/-- Claim C7: a participant token carries exactly the grant
`room_join` / `can_publish` / `can_subscribe` / `can_publish_data` for the
target room, and a time-to-live of 3600 seconds. -/
theorem participant_token_grants_and_ttl (identity name room_name : String) :
    create_participant_token identity name room_name =
      { identity := identity
        name := name
        ttl := 3600
        grants := [{ room_join := true, room := room_name, can_publish := true,
                     can_subscribe := true, can_publish_data := true }] } := rfl

/-- Claim C8: a request body whose `room_name` field is missing or empty makes
`end_voice_session` return a 400 error with `success = false`, performing no
cleanup: the registry is returned unchanged. -/
theorem end_session_missing_room_name_400 (reg : Registry)
    (rn? : Option String) (sd dl : Except String Unit)
    (h : rn? = none ∨ rn? = some "") :
    end_voice_session reg rn? sd dl =
      (reg, { http_status := 400, success := false }) := by
  have hfalsy : pyFalsyStr rn? = true := by
    rcases h with h | h <;> simp [pyFalsyStr, h]
  simp [end_voice_session, hfalsy]

/-- Witness for C8: a body with no `room_name` field over a one-entry
registry. -/
theorem end_session_missing_room_name_400_witness :
    ((none : Option String) = none ∨ (none : Option String) = some "") ∧
    end_voice_session
        [("voice_room_ab12cd34",
          ({ room := { name := "voice_room_ab12cd34" }, agent_worker := 7,
             created_at := 100 } : SessionEntry))]
        none (.ok ()) (.ok ()) =
      ([("voice_room_ab12cd34",
          { room := { name := "voice_room_ab12cd34" }, agent_worker := 7,
            created_at := 100 })],
       { http_status := 400, success := false }) :=
  ⟨Or.inl rfl, end_session_missing_room_name_400 _ none (.ok ()) (.ok ()) (Or.inl rfl)⟩

/-- Claim C2 counterexample: a start operation whose subprocess spawn raises
an exception leaves the tracked status at the fifth value `"error"` (set in
the `except` branch of `start_agent`), which is outside the claimed set
{starting, running, stopped, failed}. -/
theorem agent_status_error_escapes_four :
    (runOps [SupOp.start false (.error "boom") false]).agent_status = "error" ∧
    (runOps [SupOp.start false (.error "boom") false]).agent_status ∉
      (["starting", "running", "stopped", "failed"] : List String) := by
  exact ⟨rfl, by decide⟩

/-- Claim C2 (amended): at every state reachable by any sequence of start,
stop, and status operations — including starts whose subprocess spawn raises —
the tracked agent status is one of the five values starting, running,
stopped, failed, or error. -/
theorem agent_status_among_five (ops : List SupOp) :
    (runOps ops).agent_status ∈
      (["starting", "running", "stopped", "failed", "error"] : List String) := by
  have step : ∀ (s : SupState) (op : SupOp),
      s.agent_status ∈
        (["starting", "running", "stopped", "failed", "error"] : List String) →
      (applyOp s op).agent_status ∈
        (["starting", "running", "stopped", "failed", "error"] : List String) := by
    intro s op hs
    cases op with
    | start aliveNow spawn aliveAfter =>
      simp only [applyOp, start_agent]
      split
      · exact hs
      · split
        · simp
        · split <;> simp
    | stop aliveNow =>
      simp only [applyOp, stop_agent]
      split <;> simp
    | status aliveNow =>
      rcases hp : s.agent_process with _ | pid
      · simpa [applyOp, get_agent_status, hp] using hs
      · simp only [applyOp, get_agent_status, hp]
        split <;> simp
  have main : ∀ (l : List SupOp) (s : SupState),
      s.agent_status ∈
        (["starting", "running", "stopped", "failed", "error"] : List String) →
      (l.foldl applyOp s).agent_status ∈
        (["starting", "running", "stopped", "failed", "error"] : List String) := by
    intro l
    induction l with
    | nil => intro s hs; exact hs
    | cons op l ih => intro s hs; exact ih _ (step s op hs)
  exact main ops SupState.init (by decide)

/-- Claim C10: at every reachable supervisor state in which a process handle
is tracked, a status poll that finds the process dead sets and returns status
`"stopped"` with no process id; and at every reachable state, whatever the
poll says, the status operation never returns `"failed"` (the invariant
`agent_status = "failed" → agent_process ≠ None` holds along every run, and a
tracked handle makes the status operation recompute the status). -/
theorem status_reports_stopped_never_failed (ops : List SupOp) (alive : Bool) :
    ((runOps ops).agent_process.isSome = true →
      get_agent_status (runOps ops) false =
        ({ runOps ops with agent_status := "stopped" }, ("stopped", none))) ∧
    (get_agent_status (runOps ops) alive).2.1 ≠ "failed" := by
  have inv : ∀ (l : List SupOp) (s : SupState),
      (s.agent_status = "failed" → s.agent_process.isSome = true) →
      ((l.foldl applyOp s).agent_status = "failed" →
        (l.foldl applyOp s).agent_process.isSome = true) := by
    intro l
    induction l with
    | nil => intro s hs; exact hs
    | cons op l ih =>
      intro s hs
      refine ih _ ?_
      cases op with
      | start aliveNow spawn aliveAfter =>
        simp only [applyOp, start_agent]
        split
        · exact hs
        · split
          · intro h; simp at h
          · split <;> intro _ <;> rfl
      | stop aliveNow =>
        simp only [applyOp, stop_agent]
        split <;> intro h <;> simp at h
      | status aliveNow =>
        rcases hp : s.agent_process with _ | pid
        · simpa [applyOp, get_agent_status, hp] using hs
        · simp only [applyOp, get_agent_status, hp]
          split <;> intro _ <;> rfl
  constructor
  · intro hsome
    rcases hp : (runOps ops).agent_process with _ | pid
    · rw [hp] at hsome; exact absurd hsome (by decide)
    · simp [get_agent_status, hp]
  · rcases hp : (runOps ops).agent_process with _ | pid
    · intro h
      have hfail := inv ops SupState.init (by intro h'; exact absurd h' (by decide))
      have : (runOps ops).agent_process.isSome = true := by
        apply hfail
        simpa [get_agent_status, hp] using h
      rw [hp] at this; exact absurd this (by decide)
    · simp only [get_agent_status, hp]
      split <;> simp

/-- Witness for C10: after a start whose process dies during the settle delay
(state reached: handle `some 42`, status `"failed"`), the status operation
with a dead poll returns `"stopped"` with no pid, and does not return
`"failed"`. -/
theorem status_reports_stopped_never_failed_witness :
    (runOps [SupOp.start false (.ok 42) false]).agent_process.isSome = true ∧
    get_agent_status (runOps [SupOp.start false (.ok 42) false]) false =
      ({ runOps [SupOp.start false (.ok 42) false] with agent_status := "stopped" },
       ("stopped", none)) ∧
    (get_agent_status (runOps [SupOp.start false (.ok 42) false]) false).2.1
      ≠ "failed" :=
  have h := status_reports_stopped_never_failed [SupOp.start false (.ok 42) false] false
  ⟨by decide, h.1 (by decide), h.2⟩

end LivekitVoiceAgent
